import Mathlib

/- Shallow embedding of the patrol-robot dashboard client, translated from
   src/static/js/auth.js and src/static/js/main.js.

   The two scripts are browser glue code: they read and write localStorage,
   issue fetch requests, and mutate a few DOM text nodes, a Leaflet map and
   a navigation target.  We embed the JS runtime values the scripts touch
   (JSON scalars plus the undefined value produced by a missing object
   field), localStorage as a partial map from string keys to strings, the
   DOM text nodes and the set of Leaflet markers on the map as explicit
   state, and each handler as a pure state-transition function.  A fetch is
   split into the request the handler issues (computed from the state at
   call time) and the outcome the handler awaits; the outcome is either a
   network error (the awaited promise rejects), or a response carrying an
   HTTP status together with its body parsed as JSON when parsing succeeds
   (res.json() rejects on a non-JSON body, which aborts the handler at the
   await point, leaving the state as it was). -/

namespace PatrolRobot

/-- JavaScript runtime values relevant to the scripts: JSON scalars plus
the undefined value that reading a missing object field yields.  Numbers
are modelled as rationals. -/
inductive JSValue where
  | num (q : ℚ)
  | str (s : String)
  | jbool (b : Bool)
  | jnull
  | undefined
deriving DecidableEq

/-- Conversion of a JS number to its display string.  This stands for the
ECMAScript ToString operation on numbers; the theorems below use it only
as a fixed function (the scripts pass numbers through unmodified), so its
exact formatting never matters. -/
def jsNumToString (q : ℚ) : String :=
  toString q

/-- JavaScript string coercion as performed by template literals and by
assignment to innerText: String(v). -/
def jsToString : JSValue → String
  | .num q => jsNumToString q
  | .str s => s
  | .jbool true => "true"
  | .jbool false => "false"
  | .jnull => "null"
  | .undefined => "undefined"

/-- A parsed JSON object body, as a list of field bindings. -/
def JSObject := List (String × JSValue)

/-- Field access data.k on a parsed object: a missing field reads as the
undefined value. -/
def jfield (data : JSObject) (k : String) : JSValue :=
  (List.lookup k data).getD .undefined

/-- Browser localStorage: a partial map from string keys to string
values. -/
def Storage := String → Option String

/-- localStorage.getItem: returns the stored string or null (here: none). -/
def getItem (s : Storage) (k : String) : Option String :=
  s k

/-- localStorage.setItem: stores a string under a key, overwriting any
prior value. -/
def setItem (s : Storage) (k v : String) : Storage :=
  fun k' => if k' = k then some v else s k'

/-- localStorage.removeItem: deletes the binding of a key. -/
def removeItem (s : Storage) (k : String) : Storage :=
  fun k' => if k' = k then none else s k'

/-- The Authorization header value built by the template literal
composing the word Bearer with the stored token; getItem returns null
when no token is stored, and the template literal coerces null to the
string null. -/
def bearerOf (token : Option String) : String :=
  "Bearer " ++ (match token with
    | some t => t
    | none => "null")

/-- An outgoing HTTP request at the fetch interface: method, full URL,
optional Authorization header, optional form-encoded body given as its
field bindings. -/
structure Request where
  method : String
  url : String
  authHeader : Option String
  formBody : Option (List (String × String))
deriving DecidableEq

/-- The outcome a handler awaits after issuing a fetch: the promise
rejects with a network error, or resolves to a response with an HTTP
status and a body; the body is some parsed object when res.json()
succeeds and none when the body is not JSON (res.json() rejects). -/
inductive FetchOutcome where
  | networkError
  | response (status : Nat) (body : Option JSObject)

/-- The res.ok flag of the fetch API: status in the 2xx range. -/
def resOk (status : Nat) : Bool :=
  decide (200 ≤ status) && decide (status ≤ 299)

/-- A Leaflet map marker at a latitude/longitude pair. -/
structure Marker where
  lat : ℚ
  lon : ℚ
deriving DecidableEq

/-- Construction L.marker([lat, lon]): succeeds exactly when both
coordinates are numbers; on anything else Leaflet throws an invalid
LatLng error, which aborts the handler. -/
def Lmarker (lat lon : JSValue) : Option Marker :=
  match lat, lon with
  | .num a, .num b => some ⟨a, b⟩
  | _, _ => none

/-- The mutable state main.js touches: localStorage, the two DOM text
nodes (battery and position), the module-level marker variable, the list
of markers currently added to the Leaflet map, and the pending navigation
target set through window.location.href. -/
structure ClientState where
  storage : Storage
  batteryText : String
  positionText : String
  marker : Option Marker
  mapMarkers : List Marker
  navigatedTo : Option String

/-- The GET request loadRobotStatus issues, computed from the state at
call time: the stored token is attached as a bearer credential. -/
def pollRequest (st : ClientState) : Request :=
  { method := "GET"
    url := "http://localhost:8000/robot/status"
    authHeader := some (bearerOf (getItem st.storage "token"))
    formBody := none }

/-- Transition of loadRobotStatus in main.js for a given fetch outcome.
A network error or a non-JSON body rejects at an await point before any
DOM write, leaving the state unchanged.  Once the body parses as JSON the
HTTP status is never inspected: the battery and position texts are
assigned the coerced field values, the previous marker (if the marker
variable holds one) is removed from the map, and a new marker is
constructed and added; if a coordinate is not a number the marker
construction throws, after the text writes and the removal have already
happened. -/
def loadRobotStatus (st : ClientState) (out : FetchOutcome) : ClientState :=
  match out with
  | .networkError => st
  | .response _status none => st
  | .response _status (some data) =>
    let battery := jfield data "battery"
    let lat := jfield data "lat"
    let lon := jfield data "lon"
    let st1 := { st with
      batteryText := jsToString battery
      positionText := jsToString lat ++ ", " ++ jsToString lon }
    let st2 := match st1.marker with
      | some m => { st1 with mapMarkers := st1.mapMarkers.erase m }
      | none => st1
    match Lmarker lat lon with
    | none => st2
    | some m => { st2 with marker := some m, mapMarkers := st2.mapMarkers ++ [m] }

/-- Transition of startPatrol in main.js: fires one POST to the start
endpoint with the stored token attached and returns without awaiting or
inspecting the response; the state is untouched. -/
def startPatrol (st : ClientState) : ClientState × List Request :=
  (st,
   [{ method := "POST"
      url := "http://localhost:8000/robot/start"
      authHeader := some (bearerOf (getItem st.storage "token"))
      formBody := none }])

/-- Transition of returnBase in main.js: fires one POST to the return
endpoint with the stored token attached and returns without awaiting or
inspecting the response; the state is untouched. -/
def returnBase (st : ClientState) : ClientState × List Request :=
  (st,
   [{ method := "POST"
      url := "http://localhost:8000/robot/return"
      authHeader := some (bearerOf (getItem st.storage "token"))
      formBody := none }])

/-- Transition of logout in main.js: removes the token from localStorage,
then navigates to the login page; no request is issued. -/
def logout (st : ClientState) : ClientState × List Request :=
  ({ st with
      storage := removeItem st.storage "token"
      navigatedTo := some "login.html" }, [])

/-- The base URL hard-coded in auth.js (named API_URL there). -/
def API_URL : String :=
  "http://13.125.247.94:8000"

/-- The mutable state auth.js touches: localStorage, the message text
node, and the pending navigation target. -/
structure LoginState where
  storage : Storage
  message : String
  navigatedTo : Option String

/-- The POST request the login click handler issues: the form fields are
sent as a URL-encoded body; no Authorization header is attached. -/
def loginRequest (username password : String) : Request :=
  { method := "POST"
    url := API_URL ++ "/login"
    authHeader := none
    formBody := some [("username", username), ("password", password)] }

/-- Transition of the login button click handler in auth.js for a given
fetch outcome.  When res.ok holds, the body is parsed and the
access_token field is stored (coerced to a string by setItem) under the
token key, then the page navigates to main.html; a non-JSON body rejects
at the res.json() await, changing nothing.  When res.ok is false the
fixed failure message is written and storage is untouched. -/
def loginClick (st : LoginState) (out : FetchOutcome) : LoginState :=
  match out with
  | .networkError => st
  | .response status body =>
    if resOk status then
      match body with
      | none => st
      | some data =>
        { st with
            storage := setItem st.storage "token"
              (jsToString (jfield data "access_token"))
            navigatedTo := some "main.html" }
    else
      { st with message := "로그인 실패!" }

/-- The host and port part of a URL: the characters between the double
slash of the scheme and the next slash. -/
def hostPortChars : List Char → List Char
  | [] => []
  | '/' :: '/' :: rest => rest.takeWhile (fun c => c ≠ '/')
  | _ :: rest => hostPortChars rest

/-- The host and port part of a URL string. -/
def urlHost (u : String) : String :=
  ⟨hostPortChars u.data⟩

/-- Consistency of the marker bookkeeping in main.js: the Leaflet map
holds either no marker, or exactly the one marker the module-level
marker variable points at.  This holds initially (no marker, empty map)
and is preserved by every transition. -/
def markerInv (st : ClientState) : Prop :=
  st.mapMarkers = [] ∨ ∃ m, st.mapMarkers = [m] ∧ st.marker = some m

/-- Helper: the marker bookkeeping invariant is preserved by every
loadRobotStatus transition, whatever the fetch outcome. -/
theorem markerInv_loadRobotStatus (st : ClientState) (out : FetchOutcome)
    (hinv : markerInv st) : markerInv (loadRobotStatus st out) := by
  obtain ⟨sto, bt, pt, mk, mm, nav⟩ := st
  rcases out with _ | ⟨status, body⟩
  · exact hinv
  rcases body with _ | data
  · exact hinv
  simp only [markerInv] at hinv ⊢
  rcases hinv with hmm | ⟨m, hmm, hmk⟩
  · subst hmm
    rcases mk with _ | m0 <;>
      rcases hL : Lmarker (jfield data "lat") (jfield data "lon") with _ | m2 <;>
      simp [loadRobotStatus, hL]
  ·
    subst hmm; subst hmk
    rcases hL : Lmarker (jfield data "lat") (jfield data "lon") with _ | m2 <;>
      simp [loadRobotStatus, hL]

/-- Helper: under the marker invariant the map carries at most one
marker. -/
theorem markerInv_length (st : ClientState) (hinv : markerInv st) :
    st.mapMarkers.length ≤ 1 := by
  rcases hinv with h | ⟨m, h, _⟩ <;> simp [h]

/-- Helper: a poll whose body parses as JSON and has numeric coordinates
replaces the marker with one at the response coordinates and writes the
coerced battery and position texts; storage is untouched. -/
theorem loadRobotStatus_success (st : ClientState) (hinv : markerInv st)
    (s : Nat) (d : JSObject) (la lo : ℚ)
    (ha : jfield d "lat" = .num la) (hb : jfield d "lon" = .num lo) :
    (loadRobotStatus st (.response s (some d))).mapMarkers = [⟨la, lo⟩] ∧
    (loadRobotStatus st (.response s (some d))).marker = some ⟨la, lo⟩ ∧
    (loadRobotStatus st (.response s (some d))).batteryText
      = jsToString (jfield d "battery") ∧
    (loadRobotStatus st (.response s (some d))).positionText
      = jsNumToString la ++ ", " ++ jsNumToString lo ∧
    (loadRobotStatus st (.response s (some d))).storage = st.storage := by
  obtain ⟨sto, bt, pt, mk, mm, nav⟩ := st
  rcases hinv with hmm | ⟨m, hmm, hmk⟩
  · subst hmm
    rcases mk with _ | m0 <;>
      simp [loadRobotStatus, ha, hb, Lmarker, jsToString]
  ·
    subst hmm; subst hmk
    simp [loadRobotStatus, ha, hb, Lmarker, jsToString]

/-- Helper: after any poll whose body parses as JSON, the battery text is
the coerced battery field, whatever the status and the other fields. -/
theorem loadRobotStatus_batteryText (st : ClientState) (s : Nat) (d : JSObject) :
    (loadRobotStatus st (.response s (some d))).batteryText
      = jsToString (jfield d "battery") := by
  obtain ⟨sto, bt, pt, mk, mm, nav⟩ := st
  rcases mk with _ | m0 <;>
    rcases hL : Lmarker (jfield d "lat") (jfield d "lon") with _ | m2 <;>
    simp [loadRobotStatus, hL]

/-- Helper: no loadRobotStatus transition writes to localStorage. -/
theorem loadRobotStatus_storage (st : ClientState) (out : FetchOutcome) :
    (loadRobotStatus st out).storage = st.storage := by
  obtain ⟨sto, bt, pt, mk, mm, nav⟩ := st
  rcases out with _ | ⟨status, body⟩
  · rfl
  rcases body with _ | data
  · rfl
  rcases mk with _ | m0 <;>
    rcases hL : Lmarker (jfield data "lat") (jfield data "lon") with _ | m2 <;>
    simp [loadRobotStatus, hL]

/-- Claim C1, counterexample: the claim counts a non-2xx status as a
failure that changes nothing, but loadRobotStatus never inspects the
status.  A 401 response whose body parses as JSON updates the displayed
battery text, so the display does not remain as it was. -/
theorem C1_counterexample :
    resOk 401 = false ∧
    (loadRobotStatus ⟨fun _ => none, "--", "--", none, [], none⟩
        (.response 401 (some [("battery", .str "55"), ("lat", .num 1), ("lon", .num 2)]))).batteryText
      ≠ "--" :=
  ⟨by decide, by decide⟩

/-- Claim C1, amended: an execution of refreshStatus that fails at the
network fetch or at JSON parsing (network error or non-JSON body) leaves
the whole client state, and so the battery text, position text and
marker, exactly as before the call; the HTTP status is never inspected,
so a non-2xx response with a JSON body behaves exactly as a 200 response
with the same body. -/
theorem C1_error_atomicity (st : ClientState) (status : Nat) (d : JSObject) :
    loadRobotStatus st .networkError = st ∧
    loadRobotStatus st (.response status none) = st ∧
    loadRobotStatus st (.response status (some d))
      = loadRobotStatus st (.response 200 (some d)) :=
  ⟨rfl, rfl, rfl⟩

/-- Claim C2: starting from a state satisfying the marker bookkeeping
invariant, at most one marker is on the map after any transition, and
after two consecutive successful polls exactly one marker exists,
positioned at the second response coordinates (the first poll put it at
the first response coordinates, and the second poll replaced it). -/
theorem C2_single_marker (st : ClientState) (hinv : markerInv st)
    (s1 s2 : Nat) (d1 d2 : JSObject) (la1 lo1 la2 lo2 : ℚ)
    (h1a : jfield d1 "lat" = .num la1) (h1b : jfield d1 "lon" = .num lo1)
    (h2a : jfield d2 "lat" = .num la2) (h2b : jfield d2 "lon" = .num lo2) :
    (∀ out, (loadRobotStatus st out).mapMarkers.length ≤ 1) ∧
    (loadRobotStatus st (.response s1 (some d1))).mapMarkers = [⟨la1, lo1⟩] ∧
    (loadRobotStatus (loadRobotStatus st (.response s1 (some d1)))
        (.response s2 (some d2))).mapMarkers = [⟨la2, lo2⟩] ∧
    (loadRobotStatus (loadRobotStatus st (.response s1 (some d1)))
        (.response s2 (some d2))).marker = some ⟨la2, lo2⟩ := by
  have hinv1 := markerInv_loadRobotStatus st (.response s1 (some d1)) hinv
  exact ⟨fun out => markerInv_length _ (markerInv_loadRobotStatus st out hinv),
    (loadRobotStatus_success st hinv s1 d1 la1 lo1 h1a h1b).1,
    (loadRobotStatus_success _ hinv1 s2 d2 la2 lo2 h2a h2b).1,
    (loadRobotStatus_success _ hinv1 s2 d2 la2 lo2 h2a h2b).2.1⟩

/-- Witness for C2 at a concrete initial state and two concrete
responses: after the two polls the map holds exactly the marker at the
second response coordinates. -/
theorem C2_single_marker_witness :
    (loadRobotStatus (loadRobotStatus ⟨fun _ => none, "", "", none, [], none⟩
        (.response 200 (some [("lat", .num 1), ("lon", .num 2)])))
        (.response 200 (some [("lat", .num 3), ("lon", .num 4)]))).mapMarkers
      = [⟨3, 4⟩] :=
  (C2_single_marker ⟨fun _ => none, "", "", none, [], none⟩ (Or.inl rfl)
    200 200 [("lat", .num 1), ("lon", .num 2)] [("lat", .num 3), ("lon", .num 4)]
    1 2 3 4 (by decide) (by decide) (by decide) (by decide)).2.2.1

/-- Claim C3: a login answered with status 200 and body holding
access_token T stores T under the token key and navigates to main.html;
a login answered with any non-2xx status (such as 401) writes the fixed
failure message, stores nothing and does not navigate. -/
theorem C3_login (st : LoginState) (t : String) (status : Nat) (body : Option JSObject)
    (hstatus : resOk status = false) :
    ((loginClick st (.response 200 (some [("access_token", .str t)]))).storage "token"
       = some t ∧
     (loginClick st (.response 200 (some [("access_token", .str t)]))).navigatedTo
       = some "main.html") ∧
    ((loginClick st (.response status body)).message = "로그인 실패!" ∧
     (loginClick st (.response status body)).storage = st.storage ∧
     (loginClick st (.response status body)).navigatedTo = st.navigatedTo) := by
  refine ⟨⟨?_, ?_⟩, ?_, ?_, ?_⟩
  · simp [loginClick, resOk, setItem, jfield, jsToString]
  · simp [loginClick, resOk]
  · simp [loginClick, hstatus]
  · simp [loginClick, hstatus]
  · simp [loginClick, hstatus]

/-- Witness for C3: the two scenarios of the spec at token T1 and
status 401. -/
theorem C3_login_witness :
    ((loginClick ⟨fun _ => none, "", none⟩
        (.response 200 (some [("access_token", .str "T1")]))).storage "token" = some "T1" ∧
     (loginClick ⟨fun _ => none, "", none⟩
        (.response 200 (some [("access_token", .str "T1")]))).navigatedTo = some "main.html") ∧
    ((loginClick ⟨fun _ => none, "", none⟩ (.response 401 (some []))).message = "로그인 실패!" ∧
     (loginClick ⟨fun _ => none, "", none⟩ (.response 401 (some []))).storage
       = (⟨fun _ => none, "", none⟩ : LoginState).storage ∧
     (loginClick ⟨fun _ => none, "", none⟩ (.response 401 (some []))).navigatedTo
       = (⟨fun _ => none, "", none⟩ : LoginState).navigatedTo) :=
  C3_login ⟨fun _ => none, "", none⟩ "T1" 401 (some []) (by decide)

/-- Claim C4: startPatrol and returnBase each issue exactly one POST to
their fixed path with the stored token attached as a bearer credential,
leave the state untouched (no response is awaited or inspected), and the
request they issue is the same whatever outcome any in-flight status
poll has, since no poll outcome writes to storage. -/
theorem C4_dispatch (st : ClientState) (out : FetchOutcome) :
    (startPatrol st).2 = [⟨"POST", "http://localhost:8000/robot/start",
        some (bearerOf (getItem st.storage "token")), none⟩] ∧
    (startPatrol st).1 = st ∧
    (returnBase st).2 = [⟨"POST", "http://localhost:8000/robot/return",
        some (bearerOf (getItem st.storage "token")), none⟩] ∧
    (returnBase st).1 = st ∧
    (startPatrol (loadRobotStatus st out)).2 = (startPatrol st).2 ∧
    (returnBase (loadRobotStatus st out)).2 = (returnBase st).2 := by
  refine ⟨rfl, rfl, rfl, rfl, ?_, ?_⟩ <;>
    simp [startPatrol, returnBase, getItem, loadRobotStatus_storage st out]

/-- Claim C5: after any poll whose body parses as JSON and carries a
numeric battery field, the displayed battery text is exactly the
number-to-string conversion of that value. -/
theorem C5_battery_text (st : ClientState) (status : Nat) (d : JSObject) (q : ℚ)
    (hb : jfield d "battery" = .num q) :
    (loadRobotStatus st (.response status (some d))).batteryText = jsNumToString q := by
  rw [loadRobotStatus_batteryText, hb]
  rfl

/-- Witness for C5 at a concrete state and a response with battery 87. -/
theorem C5_battery_text_witness :
    (loadRobotStatus ⟨fun _ => none, "", "", none, [], none⟩
        (.response 200 (some [("battery", .num 87), ("lat", .num 1), ("lon", .num 2)]))).batteryText
      = jsNumToString 87 :=
  C5_battery_text ⟨fun _ => none, "", "", none, [], none⟩ 200
    [("battery", .num 87), ("lat", .num 1), ("lon", .num 2)] 87 (by decide)

/-- Claim C6: when no token is stored the status request is still built
and issued, with the Authorization header holding the string Bearer null
(the template literal coerces the null of getItem to the string null);
nothing throws before the request is issued. -/
theorem C6_no_token (st : ClientState) (h : getItem st.storage "token" = none) :
    pollRequest st = ⟨"GET", "http://localhost:8000/robot/status", some "Bearer null", none⟩ := by
  simp [pollRequest, bearerOf, h]

/-- Witness for C6 at a state with empty storage. -/
theorem C6_no_token_witness :
    pollRequest ⟨fun _ => none, "", "", none, [], none⟩
      = ⟨"GET", "http://localhost:8000/robot/status", some "Bearer null", none⟩ :=
  C6_no_token ⟨fun _ => none, "", "", none, [], none⟩ rfl

/-- Claim C7: logout removes the stored token, performs exactly the
navigation to login.html, issues no request, and a subsequent token read
returns the absent indicator. -/
theorem C7_logout (st : ClientState) :
    getItem (logout st).1.storage "token" = none ∧
    (logout st).1.navigatedTo = some "login.html" ∧
    (logout st).2 = [] := by
  refine ⟨?_, rfl, rfl⟩
  simp [logout, getItem, removeItem]

/-- Claim C8: the stored token is written only by the successful login
flow and removed only by logout.  Every loadRobotStatus transition and
both command dispatches leave the whole storage unchanged; logout
changes only the token key; the login click handler changes no key other
than the token key, whatever the outcome. -/
theorem C8_token_frame (st : ClientState) (lst : LoginState) (out outL : FetchOutcome)
    (k : String) (hk : k ≠ "token") :
    (loadRobotStatus st out).storage = st.storage ∧
    (startPatrol st).1.storage = st.storage ∧
    (returnBase st).1.storage = st.storage ∧
    (logout st).1.storage k = st.storage k ∧
    (logout st).1.storage "token" = none ∧
    (loginClick lst outL).storage k = lst.storage k := by
  refine ⟨loadRobotStatus_storage st out, rfl, rfl, ?_, ?_, ?_⟩
  · simp [logout, removeItem, hk]
  · simp [logout, removeItem]
  · rcases outL with _ | ⟨status, body⟩
    · rfl
    rcases body with _ | data <;> by_cases hok : resOk status <;>
      simp [loginClick, hok, setItem, hk]

/-- Witness for C8 at concrete states, a network-error outcome and the
key named other. -/
theorem C8_token_frame_witness :
    (loadRobotStatus ⟨fun _ => none, "", "", none, [], none⟩ .networkError).storage
      = (⟨fun _ => none, "", "", none, [], none⟩ : ClientState).storage ∧
    (startPatrol ⟨fun _ => none, "", "", none, [], none⟩).1.storage
      = (⟨fun _ => none, "", "", none, [], none⟩ : ClientState).storage ∧
    (returnBase ⟨fun _ => none, "", "", none, [], none⟩).1.storage
      = (⟨fun _ => none, "", "", none, [], none⟩ : ClientState).storage ∧
    (logout ⟨fun _ => none, "", "", none, [], none⟩).1.storage "other"
      = (⟨fun _ => none, "", "", none, [], none⟩ : ClientState).storage "other" ∧
    (logout ⟨fun _ => none, "", "", none, [], none⟩).1.storage "token" = none ∧
    (loginClick ⟨fun _ => none, "", none⟩ .networkError).storage "other"
      = (⟨fun _ => none, "", none⟩ : LoginState).storage "other" :=
  C8_token_frame ⟨fun _ => none, "", "", none, [], none⟩ ⟨fun _ => none, "", none⟩
    .networkError .networkError "other" (by decide)

/-- Claim C9: every dashboard request (status poll, start, return) is
addressed to host localhost:8000 while the login request is addressed to
host 13.125.247.94:8000, and these hosts differ, so the host that
receives the bearer token is not the host that issued it. -/
theorem C9_split_hosts (st : ClientState) (u p : String) :
    urlHost (pollRequest st).url = "localhost:8000" ∧
    (∀ r ∈ (startPatrol st).2, urlHost r.url = "localhost:8000") ∧
    (∀ r ∈ (returnBase st).2, urlHost r.url = "localhost:8000") ∧
    urlHost (loginRequest u p).url = "13.125.247.94:8000" ∧
    ("localhost:8000" : String) ≠ "13.125.247.94:8000" := by
  have h1 : urlHost "http://localhost:8000/robot/status" = "localhost:8000" := by decide
  have h2 : urlHost "http://localhost:8000/robot/start" = "localhost:8000" := by decide
  have h3 : urlHost "http://localhost:8000/robot/return" = "localhost:8000" := by decide
  have h4 : urlHost "http://13.125.247.94:8000/login" = "13.125.247.94:8000" := by decide
  refine ⟨h1, ?_, ?_, h4, by decide⟩
  · intro r hr
    simp [startPatrol] at hr
    subst hr
    exact h2
  · intro r hr
    simp [returnBase] at hr
    subst hr
    exact h3

/-- Claim C10: polls are not sequenced, so when two polls are in flight
the later-completing response wins: applying response B and then
response A leaves the battery text, position text and marker determined
entirely by A, whatever B carried and whichever request was issued
first. -/
theorem C10_later_poll_wins (st : ClientState) (hinv : markerInv st)
    (sA sB : Nat) (dA dB : JSObject) (qA laA loA : ℚ)
    (hbat : jfield dA "battery" = .num qA)
    (hlat : jfield dA "lat" = .num laA) (hlon : jfield dA "lon" = .num loA) :
    (loadRobotStatus (loadRobotStatus st (.response sB (some dB)))
        (.response sA (some dA))).batteryText = jsNumToString qA ∧
    (loadRobotStatus (loadRobotStatus st (.response sB (some dB)))
        (.response sA (some dA))).positionText
      = jsNumToString laA ++ ", " ++ jsNumToString loA ∧
    (loadRobotStatus (loadRobotStatus st (.response sB (some dB)))
        (.response sA (some dA))).mapMarkers = [⟨laA, loA⟩] ∧
    (loadRobotStatus (loadRobotStatus st (.response sB (some dB)))
        (.response sA (some dA))).marker = some ⟨laA, loA⟩ := by
  have hinvB := markerInv_loadRobotStatus st (.response sB (some dB)) hinv
  have h := loadRobotStatus_success _ hinvB sA dA laA loA hlat hlon
  refine ⟨?_, h.2.2.2.1, h.1, h.2.1⟩
  rw [h.2.2.1, hbat]
  rfl

/-- Witness for C10: response B with battery 9 completes first, response
A with battery 42 completes last, and the displayed battery is 42. -/
theorem C10_later_poll_wins_witness :
    (loadRobotStatus (loadRobotStatus ⟨fun _ => none, "", "", none, [], none⟩
        (.response 200 (some [("battery", .num 9), ("lat", .num 5), ("lon", .num 6)])))
        (.response 200 (some [("battery", .num 42), ("lat", .num 7), ("lon", .num 8)]))).batteryText
      = jsNumToString 42 :=
  (C10_later_poll_wins ⟨fun _ => none, "", "", none, [], none⟩ (Or.inl rfl)
    200 200 [("battery", .num 42), ("lat", .num 7), ("lon", .num 8)]
    [("battery", .num 9), ("lat", .num 5), ("lon", .num 6)]
    42 7 8 (by decide) (by decide) (by decide)).1

end PatrolRobot
